import Mathlib

/-!
Verification development for the `xwiimote-rs` asynchronous core:
the epoll-based `Reactor` (`src/reactor.rs`), the per-device
`EventStream` (`src/events.rs`), and the discovery `Monitor`
(`src/lib.rs`).  The Rust code is shallowly embedded: stateful
structures become explicit state records, kernel calls become pure
transition functions at the documented platform boundary, and panics
or fallible operations become `Except` results.
-/

-- Platform constants (Linux ABI values used through `libc`).

/-- `libc::EPOLLIN`. -/
def EPOLLIN : Nat := 1

/-- `libc::EPOLLPRI`. -/
def EPOLLPRI : Nat := 2

/-- `libc::EPOLLHUP`. -/
def EPOLLHUP : Nat := 16

/-- `libc::EPOLLET` (edge-triggered flag, bit 31). -/
def EPOLLET : Nat := 2147483648

/-- `libc` error number `EEXIST` (registration conflict from `EPOLL_CTL_ADD`). -/
def EEXIST : Nat := 17

/-- `libc` error number `ENOENT` (returned by `EPOLL_CTL_DEL` on an unregistered fd). -/
def ENOENT : Nat := 2

/-- `libc` error number `EAGAIN` (would block). -/
def EAGAIN : Nat := 11

-- Interest keys and epoll events (`src/reactor.rs`, lines 13-54).

/-- `Interest` from `src/reactor.rs`: a file descriptor together with the
bit field of relevant epoll event types. -/
structure Interest where
  fd : Nat
  events : Nat
deriving DecidableEq

/-- `libc::epoll_event`: the kernel-facing event record with an event mask
and the 64-bit user datum (which this crate sets to the fd). -/
structure EpollEvent where
  events : Nat
  u64 : Nat
deriving DecidableEq

/-- `impl From<&Interest> for epoll_event` (`src/reactor.rs`, lines 33-42):
the registered mask gains the edge-triggered flag and the datum is the fd. -/
def Interest.toEpollEvent (i : Interest) : EpollEvent :=
  { events := i.events ||| EPOLLET, u64 := i.fd }

/-- `impl From<&epoll_event> for Interest` (`src/reactor.rs`, lines 44-51):
the Interest is reconstructed from the datum and the reported mask. -/
def Interest.ofEpollEvent (e : EpollEvent) : Interest :=
  { fd := e.u64, events := e.events }

-- The waker registry (`Reactor.wakers`, a `HashMap<Interest, Waker>`).
-- Modelled as an association list with unique keys; wakers are opaque ids.

/-- The registry mapping Interests to stored waker (continuation) ids. -/
abbrev Registry := List (Interest × Nat)

/-- `HashMap::remove`-style lookup: the stored waker for a key file, if any. -/
def regLookup : Registry → Interest → Option Nat
  | [], _ => none
  | (k, w) :: rest, i => if k = i then some w else regLookup rest i

/-- Drops every binding of the given key (the effect of `HashMap::remove`
on the map contents). -/
def regErase (r : Registry) (i : Interest) : Registry :=
  List.filter (fun p => decide (p.1 ≠ i)) r

/-- `HashMap::insert`: stores the waker, overwriting any previous binding. -/
def regInsert (r : Registry) (i : Interest) (w : Nat) : Registry :=
  (i, w) :: regErase r i

/-- Registry well-formedness: each Interest key occurs at most once,
as in a `HashMap`. -/
def regWF (r : Registry) : Prop :=
  (r.map Prod.fst).Nodup

-- The kernel multiplexer state, modelled per epoll_ctl(2): the epoll
-- interest list keys registrations by file descriptor; `EPOLL_CTL_ADD`
-- fails with `EEXIST` when the fd is already present, `EPOLL_CTL_DEL`
-- fails with `ENOENT` when it is absent.

/-- The `Reactor` state (`src/reactor.rs`, lines 58-63): the epoll interest
list (fd, registered mask) owned through `ep_fd`, and the waker registry. -/
structure ReactorState where
  kernelSet : List (Nat × Nat)
  wakers : Registry
deriving DecidableEq

/-- Is the fd present in the epoll interest list? -/
def kernelHas (s : ReactorState) (fd : Nat) : Bool :=
  s.kernelSet.any (fun p => p.1 = fd)

/-- `epoll_ctl(ep_fd, EPOLL_CTL_ADD, fd, event)` at the kernel boundary. -/
def epollCtlAdd (s : ReactorState) (fd : Nat) (mask : Nat) : Except Nat ReactorState :=
  if kernelHas s fd then .error EEXIST
  else .ok { s with kernelSet := (fd, mask) :: s.kernelSet }

/-- `epoll_ctl(ep_fd, EPOLL_CTL_DEL, fd, event)` at the kernel boundary. -/
def epollCtlDel (s : ReactorState) (fd : Nat) : Except Nat ReactorState :=
  if kernelHas s fd then
    .ok { s with kernelSet := s.kernelSet.filter (fun p => decide (p.1 ≠ fd)) }
  else .error ENOENT

/-- `Reactor::add_interest` (`src/reactor.rs`, lines 142-144), through
`ctl_interest` with `EPOLL_CTL_ADD`; the registered `epoll_event` carries
the edge-triggered mask from `Interest.toEpollEvent`. -/
def Reactor.addInterest (s : ReactorState) (i : Interest) : Except Nat ReactorState :=
  epollCtlAdd s i.fd i.toEpollEvent.events

/-- `Reactor::remove_interest` (`src/reactor.rs`, lines 149-155):
deregisters from epoll; on success, removes any stored waker for the
exact Interest and wakes it.  Returns the new state and the woken
waker, if one was stored. -/
def Reactor.removeInterest (s : ReactorState) (i : Interest) :
    Except Nat (ReactorState × Option Nat) :=
  match epollCtlDel s i.fd with
  | .error e => .error e
  | .ok s1 =>
      let w := regLookup s1.wakers i
      .ok ({ s1 with wakers := regErase s1.wakers i }, w)

/-- `Reactor::set_callback` (`src/reactor.rs`, lines 163-165). -/
def Reactor.setCallback (s : ReactorState) (i : Interest) (w : Nat) : ReactorState :=
  { s with wakers := regInsert s.wakers i w }

/-- One iteration of the notification loop body in `Reactor::wake_ready`
(`src/reactor.rs`, lines 122-127): reconstruct the Interest from the
ready event and, if a waker is stored under that key, remove and wake it.
The second component accumulates the woken waker ids in order. -/
def wakeStep (acc : ReactorState × List Nat) (ev : EpollEvent) : ReactorState × List Nat :=
  let i := Interest.ofEpollEvent ev
  match regLookup acc.1.wakers i with
  | some w => ({ acc.1 with wakers := regErase acc.1.wakers i }, acc.2 ++ [w])
  | none => acc

/-- `Reactor::wake_ready` (`src/reactor.rs`, lines 105-129) applied to the
batch of ready events returned by `epoll_wait`; the kernel-reported list
is the input.  Returns the state after the wake pass and the woken ids. -/
def Reactor.wakeReady (s : ReactorState) (events : List EpollEvent) :
    ReactorState × List Nat :=
  events.foldl wakeStep (s, [])

-- Raw events and decoding (`src/events.rs`).
-- The numeric tags and key codes come from the `xwiimote-sys` bindings,
-- generated from the upstream `xwiimote.h` enumerations.

/-- `XWII_EVENT_KEY`. -/
def XWII_EVENT_KEY : Nat := 0

/-- `XWII_EVENT_ACCEL`. -/
def XWII_EVENT_ACCEL : Nat := 1

/-- `XWII_EVENT_IR`. -/
def XWII_EVENT_IR : Nat := 2

/-- `XWII_EVENT_BALANCE_BOARD`. -/
def XWII_EVENT_BALANCE_BOARD : Nat := 3

/-- `XWII_EVENT_MOTION_PLUS`. -/
def XWII_EVENT_MOTION_PLUS : Nat := 4

/-- `XWII_EVENT_PRO_CONTROLLER_KEY`. -/
def XWII_EVENT_PRO_CONTROLLER_KEY : Nat := 5

/-- `XWII_EVENT_PRO_CONTROLLER_MOVE`. -/
def XWII_EVENT_PRO_CONTROLLER_MOVE : Nat := 6

/-- `XWII_EVENT_WATCH`. -/
def XWII_EVENT_WATCH : Nat := 7

/-- `XWII_EVENT_CLASSIC_CONTROLLER_KEY`. -/
def XWII_EVENT_CLASSIC_CONTROLLER_KEY : Nat := 8

/-- `XWII_EVENT_CLASSIC_CONTROLLER_MOVE`. -/
def XWII_EVENT_CLASSIC_CONTROLLER_MOVE : Nat := 9

/-- `XWII_EVENT_NUNCHUK_KEY`. -/
def XWII_EVENT_NUNCHUK_KEY : Nat := 10

/-- `XWII_EVENT_NUNCHUK_MOVE`. -/
def XWII_EVENT_NUNCHUK_MOVE : Nat := 11

/-- `XWII_EVENT_DRUMS_KEY`. -/
def XWII_EVENT_DRUMS_KEY : Nat := 12

/-- `XWII_EVENT_DRUMS_MOVE`. -/
def XWII_EVENT_DRUMS_MOVE : Nat := 13

/-- `XWII_EVENT_GUITAR_KEY`. -/
def XWII_EVENT_GUITAR_KEY : Nat := 14

/-- `XWII_EVENT_GUITAR_MOVE`. -/
def XWII_EVENT_GUITAR_MOVE : Nat := 15

/-- `XWII_EVENT_GONE`. -/
def XWII_EVENT_GONE : Nat := 16

/-- `XWII_KEY_LEFT`. -/
def XWII_KEY_LEFT : Nat := 0

/-- `XWII_KEY_RIGHT`. -/
def XWII_KEY_RIGHT : Nat := 1

/-- `XWII_KEY_UP`. -/
def XWII_KEY_UP : Nat := 2

/-- `XWII_KEY_DOWN`. -/
def XWII_KEY_DOWN : Nat := 3

/-- `XWII_KEY_A`. -/
def XWII_KEY_A : Nat := 4

/-- `XWII_KEY_B`. -/
def XWII_KEY_B : Nat := 5

/-- `XWII_KEY_PLUS`. -/
def XWII_KEY_PLUS : Nat := 6

/-- `XWII_KEY_MINUS`. -/
def XWII_KEY_MINUS : Nat := 7

/-- `XWII_KEY_HOME`. -/
def XWII_KEY_HOME : Nat := 8

/-- `XWII_KEY_ONE`. -/
def XWII_KEY_ONE : Nat := 9

/-- `XWII_KEY_TWO`. -/
def XWII_KEY_TWO : Nat := 10

/-- `XWII_KEY_X`. -/
def XWII_KEY_X : Nat := 11

/-- `XWII_KEY_Y`. -/
def XWII_KEY_Y : Nat := 12

/-- `XWII_KEY_TL`. -/
def XWII_KEY_TL : Nat := 13

/-- `XWII_KEY_TR`. -/
def XWII_KEY_TR : Nat := 14

/-- `XWII_KEY_ZL`. -/
def XWII_KEY_ZL : Nat := 15

/-- `XWII_KEY_ZR`. -/
def XWII_KEY_ZR : Nat := 16

/-- `XWII_KEY_THUMBL`. -/
def XWII_KEY_THUMBL : Nat := 17

/-- `XWII_KEY_THUMBR`. -/
def XWII_KEY_THUMBR : Nat := 18

/-- `XWII_KEY_C`. -/
def XWII_KEY_C : Nat := 19

/-- `XWII_KEY_Z`. -/
def XWII_KEY_Z : Nat := 20

/-- `XWII_KEY_STRUM_BAR_UP`. -/
def XWII_KEY_STRUM_BAR_UP : Nat := 21

/-- `XWII_KEY_FRET_FAR_UP`. -/
def XWII_KEY_FRET_FAR_UP : Nat := 23

/-- `XWII_KEY_FRET_UP`. -/
def XWII_KEY_FRET_UP : Nat := 24

/-- `XWII_KEY_FRET_MID`. -/
def XWII_KEY_FRET_MID : Nat := 25

/-- `XWII_KEY_FRET_LOW`. -/
def XWII_KEY_FRET_LOW : Nat := 26

/-- `XWII_KEY_FRET_FAR_LOW`. -/
def XWII_KEY_FRET_FAR_LOW : Nat := 27

/-- One entry of the `xwii_event_abs` payload array. -/
structure RawAbs where
  x : Int
  y : Int
  z : Int
deriving DecidableEq

/-- The `xwii_event_key` payload. -/
structure RawKey where
  code : Nat
  state : Nat
deriving DecidableEq

/-- The raw `xwii_event` record filled in by `xwii_iface_dispatch`.
The C union payload is modelled by carrying both the key payload and the
absolute-position array; the decoder reads the one selected by `type_`. -/
structure RawEvent where
  tvSec : Nat
  tvUsec : Nat
  type_ : Nat
  key : RawKey
  abs : Nat → RawAbs

/-- The keys of a Wii Remote (`Key` in `src/events.rs`, built by the
`regular_controller_key_enum` macro). -/
inductive Key where
  | plus | minus | left | right | up | down | a | b | home | one | two
deriving DecidableEq

/-- `Key::from_u32`, the derived `FromPrimitive` conversion. -/
def Key.fromU32 (c : Nat) : Option Key :=
  if c = XWII_KEY_PLUS then some .plus
  else if c = XWII_KEY_MINUS then some .minus
  else if c = XWII_KEY_LEFT then some .left
  else if c = XWII_KEY_RIGHT then some .right
  else if c = XWII_KEY_UP then some .up
  else if c = XWII_KEY_DOWN then some .down
  else if c = XWII_KEY_A then some .a
  else if c = XWII_KEY_B then some .b
  else if c = XWII_KEY_HOME then some .home
  else if c = XWII_KEY_ONE then some .one
  else if c = XWII_KEY_TWO then some .two
  else none

/-- The keys of a Wii U Pro controller (`ProControllerKey`). -/
inductive ProControllerKey where
  | plus | minus | left | right | up | down | a | b | home
  | x | y | tl | tr | zl | zr | leftThumb | rightThumb
deriving DecidableEq

/-- `ProControllerKey::from_u32`. -/
def ProControllerKey.fromU32 (c : Nat) : Option ProControllerKey :=
  if c = XWII_KEY_PLUS then some .plus
  else if c = XWII_KEY_MINUS then some .minus
  else if c = XWII_KEY_LEFT then some .left
  else if c = XWII_KEY_RIGHT then some .right
  else if c = XWII_KEY_UP then some .up
  else if c = XWII_KEY_DOWN then some .down
  else if c = XWII_KEY_A then some .a
  else if c = XWII_KEY_B then some .b
  else if c = XWII_KEY_HOME then some .home
  else if c = XWII_KEY_X then some .x
  else if c = XWII_KEY_Y then some .y
  else if c = XWII_KEY_TL then some .tl
  else if c = XWII_KEY_TR then some .tr
  else if c = XWII_KEY_ZL then some .zl
  else if c = XWII_KEY_ZR then some .zr
  else if c = XWII_KEY_THUMBL then some .leftThumb
  else if c = XWII_KEY_THUMBR then some .rightThumb
  else none

/-- The keys of a Classic controller (`ClassicControllerKey`). -/
inductive ClassicControllerKey where
  | plus | minus | left | right | up | down | a | b | home
  | x | y | tl | tr | zl | zr
deriving DecidableEq

/-- `ClassicControllerKey::from_u32`. -/
def ClassicControllerKey.fromU32 (c : Nat) : Option ClassicControllerKey :=
  if c = XWII_KEY_PLUS then some .plus
  else if c = XWII_KEY_MINUS then some .minus
  else if c = XWII_KEY_LEFT then some .left
  else if c = XWII_KEY_RIGHT then some .right
  else if c = XWII_KEY_UP then some .up
  else if c = XWII_KEY_DOWN then some .down
  else if c = XWII_KEY_A then some .a
  else if c = XWII_KEY_B then some .b
  else if c = XWII_KEY_HOME then some .home
  else if c = XWII_KEY_X then some .x
  else if c = XWII_KEY_Y then some .y
  else if c = XWII_KEY_TL then some .tl
  else if c = XWII_KEY_TR then some .tr
  else if c = XWII_KEY_ZL then some .zl
  else if c = XWII_KEY_ZR then some .zr
  else none

/-- The keys of a Nunchuk (`NunchukKey`). -/
inductive NunchukKey where
  | c | z
deriving DecidableEq

/-- `NunchukKey::from_u32`. -/
def NunchukKey.fromU32 (c : Nat) : Option NunchukKey :=
  if c = XWII_KEY_C then some .c
  else if c = XWII_KEY_Z then some .z
  else none

/-- The keys of a drums controller (`DrumsKey`, with just + and -). -/
inductive DrumsKey where
  | plus | minus
deriving DecidableEq

/-- `DrumsKey::from_u32`. -/
def DrumsKey.fromU32 (c : Nat) : Option DrumsKey :=
  if c = XWII_KEY_PLUS then some .plus
  else if c = XWII_KEY_MINUS then some .minus
  else none

/-- The keys of a guitar controller (`GuitarKey`). -/
inductive GuitarKey where
  | plus | minus | starPower | strumBar
  | highestFretBar | highFretBar | midFretBar | lowFretBar | lowestFretBar
deriving DecidableEq

/-- `GuitarKey::from_u32` (`StarPower` shares `XWII_KEY_HOME`). -/
def GuitarKey.fromU32 (c : Nat) : Option GuitarKey :=
  if c = XWII_KEY_PLUS then some .plus
  else if c = XWII_KEY_MINUS then some .minus
  else if c = XWII_KEY_HOME then some .starPower
  else if c = XWII_KEY_STRUM_BAR_UP then some .strumBar
  else if c = XWII_KEY_FRET_FAR_UP then some .highestFretBar
  else if c = XWII_KEY_FRET_UP then some .highFretBar
  else if c = XWII_KEY_FRET_MID then some .midFretBar
  else if c = XWII_KEY_FRET_LOW then some .lowFretBar
  else if c = XWII_KEY_FRET_FAR_LOW then some .lowestFretBar
  else none

/-- The tri-state key status (`KeyState` in `src/events.rs`). -/
inductive KeyState where
  | up | down | autoRepeat
deriving DecidableEq

/-- `KeyState::from_u32` (discriminants 0, 1, 2). -/
def KeyState.fromU32 (s : Nat) : Option KeyState :=
  if s = 0 then some .up
  else if s = 1 then some .down
  else if s = 2 then some .autoRepeat
  else none

/-- A decode fault: in the Rust source these are `panic!`/`todo!` calls
inside `Event::parse` and `Event::parse_key`, i.e. loud faults rather than
silently dropped or defaulted events. -/
inductive DecodeFault where
  | unknownType (t : Nat)
  | unexpectedGone
  | todoDrumsMove
  | unknownKeyCode (c : Nat)
  | unknownKeyState (s : Nat)
deriving DecidableEq

/-- An IR source (`IrSource` in `src/events.rs`). -/
structure IrSource where
  x : Int
  y : Int
deriving DecidableEq

/-- `MAX_IR_SOURCES` (`src/events.rs`, line 167). -/
def MAX_IR_SOURCES : Nat := 4

/-- The per-slot "missing source" sentinel coordinate value
(`MISSING_SOURCE` in `IrSource::parse`). -/
def MISSING_SOURCE : Int := 1023

/-- `IrSource::parse` (`src/events.rs`, lines 183-195): a slot is present
exactly when neither coordinate equals the sentinel; slot order is kept. -/
def IrSource.parse (raw : RawEvent) : List (Option IrSource) :=
  (List.range MAX_IR_SOURCES).map (fun ix =>
    if (raw.abs ix).x ≠ MISSING_SOURCE ∧ (raw.abs ix).y ≠ MISSING_SOURCE then
      some { x := (raw.abs ix).x, y := (raw.abs ix).y }
    else none)

/-- The decoded `Event` sum type (`src/events.rs`, lines 199-338).
`GuitarMove` is declared in the Rust enum but never produced by
`Event::parse` (tag 15 falls through to the catch-all panic). -/
inductive Event where
  | key (k : Key) (s : KeyState)
  | accelerometer (x y z : Int)
  | ir (sources : List (Option IrSource))
  | balanceBoard (w0 w1 w2 w3 : Int)
  | motionPlus (x y z : Int)
  | proControllerKey (k : ProControllerKey) (s : KeyState)
  | proControllerMove (lx ly rx ry : Int)
  | other
  | classicControllerKey (k : ClassicControllerKey) (s : KeyState)
  | classicControllerMove (lx ly rx ry : Int) (lt rt : Nat)
  | nunchukKey (k : NunchukKey) (s : KeyState)
  | nunchukMove (x y xa ya : Int)
  | drumsKey (k : DrumsKey) (s : KeyState)
  | guitarKey (k : GuitarKey) (s : KeyState)
deriving DecidableEq

/-- `Event::parse_key` (`src/events.rs`, lines 441-448): decode the key
payload with the `FromPrimitive` conversion for the target key type,
faulting loudly on an unknown code or state. -/
def parseKeyPayload {κ : Type} (fromU32 : Nat → Option κ) (raw : RawEvent) :
    Except DecodeFault (κ × KeyState) :=
  match fromU32 raw.key.code with
  | none => .error (.unknownKeyCode raw.key.code)
  | some k =>
      match KeyState.fromU32 raw.key.state with
      | none => .error (.unknownKeyState raw.key.state)
      | some s => .ok (k, s)

/-- The kernel timestamp embedded in the record, as computed in
`Event::parse` (`src/events.rs`, lines 350-351): `tv_usec` is truncated
to 32 bits, scaled to nanoseconds with wrapping 32-bit arithmetic, and
normalized by the `Duration` constructor into (seconds, nanoseconds). -/
def eventTime (raw : RawEvent) : Nat × Nat :=
  let nanos := ((raw.tvUsec % 4294967296) * 1000) % 4294967296
  (raw.tvSec + nanos / 1000000000, nanos % 1000000000)

/-- `Event::parse` (`src/events.rs`, lines 348-434): dispatch on the raw
type tag; `DRUMS_MOVE` hits a `todo!`, `GONE` and any unlisted tag hit a
`panic!`, all modelled as decode faults. -/
def Event.parse (raw : RawEvent) : Except DecodeFault (Event × Nat × Nat) :=
  let ev : Except DecodeFault Event :=
    if raw.type_ = XWII_EVENT_KEY then
      (parseKeyPayload Key.fromU32 raw).map (fun p => .key p.1 p.2)
    else if raw.type_ = XWII_EVENT_ACCEL then
      .ok (.accelerometer (raw.abs 0).x (raw.abs 0).y (raw.abs 0).z)
    else if raw.type_ = XWII_EVENT_IR then
      .ok (.ir (IrSource.parse raw))
    else if raw.type_ = XWII_EVENT_BALANCE_BOARD then
      .ok (.balanceBoard (raw.abs 0).x (raw.abs 1).x (raw.abs 2).x (raw.abs 3).x)
    else if raw.type_ = XWII_EVENT_MOTION_PLUS then
      .ok (.motionPlus (raw.abs 0).x (raw.abs 0).y (raw.abs 0).z)
    else if raw.type_ = XWII_EVENT_PRO_CONTROLLER_KEY then
      (parseKeyPayload ProControllerKey.fromU32 raw).map (fun p => .proControllerKey p.1 p.2)
    else if raw.type_ = XWII_EVENT_PRO_CONTROLLER_MOVE then
      .ok (.proControllerMove (raw.abs 0).x (raw.abs 0).y (raw.abs 1).x (raw.abs 1).y)
    else if raw.type_ = XWII_EVENT_WATCH then
      .ok .other
    else if raw.type_ = XWII_EVENT_CLASSIC_CONTROLLER_KEY then
      (parseKeyPayload ClassicControllerKey.fromU32 raw).map
        (fun p => .classicControllerKey p.1 p.2)
    else if raw.type_ = XWII_EVENT_CLASSIC_CONTROLLER_MOVE then
      .ok (.classicControllerMove (raw.abs 0).x (raw.abs 0).y (raw.abs 1).x (raw.abs 1).y
        ((raw.abs 2).x % 256).toNat ((raw.abs 2).y % 256).toNat)
    else if raw.type_ = XWII_EVENT_NUNCHUK_KEY then
      (parseKeyPayload NunchukKey.fromU32 raw).map (fun p => .nunchukKey p.1 p.2)
    else if raw.type_ = XWII_EVENT_NUNCHUK_MOVE then
      .ok (.nunchukMove (raw.abs 0).x (raw.abs 0).y (raw.abs 1).x (raw.abs 1).y)
    else if raw.type_ = XWII_EVENT_DRUMS_KEY then
      (parseKeyPayload DrumsKey.fromU32 raw).map (fun p => .drumsKey p.1 p.2)
    else if raw.type_ = XWII_EVENT_DRUMS_MOVE then
      .error .todoDrumsMove
    else if raw.type_ = XWII_EVENT_GUITAR_KEY then
      (parseKeyPayload GuitarKey.fromU32 raw).map (fun p => .guitarKey p.1 p.2)
    else if raw.type_ = XWII_EVENT_GONE then
      .error .unexpectedGone
    else
      .error (.unknownType raw.type_)
  ev.map (fun e => (e, eventTime raw))

/-- The type tags with a dedicated arm in `Event::parse`'s match; the
`GONE` arm is a deliberate panic and tag 15 (`GUITAR_MOVE`) has no arm. -/
def handledTags : List Nat := [0, 1, 2, 3, 4, 5, 6, 7, 8, 9, 10, 11, 12, 13, 14, 16]

/-- The tags whose payload is decoded through `Event::parse_key`. -/
def isKeyTag (t : Nat) : Bool :=
  t = XWII_EVENT_KEY ∨ t = XWII_EVENT_PRO_CONTROLLER_KEY ∨
    t = XWII_EVENT_CLASSIC_CONTROLLER_KEY ∨ t = XWII_EVENT_NUNCHUK_KEY ∨
    t = XWII_EVENT_DRUMS_KEY ∨ t = XWII_EVENT_GUITAR_KEY

/-- Whether the key code is known for the decoder selected by the tag. -/
def codeKnownFor (t c : Nat) : Bool :=
  if t = XWII_EVENT_KEY then (Key.fromU32 c).isSome
  else if t = XWII_EVENT_PRO_CONTROLLER_KEY then (ProControllerKey.fromU32 c).isSome
  else if t = XWII_EVENT_CLASSIC_CONTROLLER_KEY then (ClassicControllerKey.fromU32 c).isSome
  else if t = XWII_EVENT_NUNCHUK_KEY then (NunchukKey.fromU32 c).isSome
  else if t = XWII_EVENT_DRUMS_KEY then (DrumsKey.fromU32 c).isSome
  else if t = XWII_EVENT_GUITAR_KEY then (GuitarKey.fromU32 c).isSome
  else true


-- The per-device event stream (`src/events.rs`, lines 456-546).

/-- The interest mask used by the event stream:
`EventStream::EPOLL_EVENTS = EPOLLIN | EPOLLHUP | EPOLLPRI`. -/
def streamEpollEvents : Nat := EPOLLIN ||| EPOLLHUP ||| EPOLLPRI

/-- The mutable `EventStream` state relevant to its state machine: the
`have_interest` flag guarding deregistration (the decode buffer and the
device reference carry no machine state). -/
structure EventStreamState where
  haveInterest : Bool
deriving DecidableEq

/-- An error surfaced by the stream: either the last OS error of a failed
descriptor operation, or a decode fault (a `panic!` in the Rust source). -/
inductive StreamErr where
  | os (e : Nat)
  | decode (f : DecodeFault)
deriving DecidableEq

/-- Decidable equality for `Except`, needed to evaluate poll outcomes. -/
instance instDecEqExcept {ε α : Type} [DecidableEq ε] [DecidableEq α] :
    DecidableEq (Except ε α)
  | Except.error e, Except.error f =>
      if h : e = f then .isTrue (congrArg Except.error h)
      else .isFalse (fun hh => h (Except.error.inj hh))
  | Except.error _, Except.ok _ => .isFalse (fun hh => Except.noConfusion hh)
  | Except.ok _, Except.error _ => .isFalse (fun hh => Except.noConfusion hh)
  | Except.ok x, Except.ok y =>
      if h : x = y then .isTrue (congrArg Except.ok h)
      else .isFalse (fun hh => h (Except.ok.inj hh))

/-- The outcome of one `poll_next` call on the event stream. -/
inductive StreamPoll where
  | pending
  | ready (item : Option (Except StreamErr (Event × Nat × Nat)))
deriving DecidableEq

/-- `EventStream::new` (`src/events.rs`, lines 469-480): eagerly registers
interest in the device descriptor before any poll. -/
def EventStream.new (fd : Nat) (r : ReactorState) :
    Except Nat (EventStreamState × ReactorState) :=
  match Reactor.addInterest r { fd := fd, events := streamEpollEvents } with
  | .error e => .error e
  | .ok r1 => .ok ({ haveInterest := true }, r1)

/-- `EventStream::remove_interest` (`src/events.rs`, lines 483-493): clear
the flag first, then deregister with the Reactor; a second call is a no-op.
The last component counts calls into `Reactor::remove_interest`. -/
def EventStream.removeInterestOp (st : EventStreamState) (fd : Nat) (r : ReactorState) :
    EventStreamState × ReactorState × Except Nat Unit × Nat :=
  if st.haveInterest then
    match Reactor.removeInterest r { fd := fd, events := streamEpollEvents } with
    | .error e => ({ haveInterest := false }, r, .error e, 1)
    | .ok (r1, _) => ({ haveInterest := false }, r1, .ok (), 1)
  else (st, r, .ok (), 0)

/-- The result code convention of `xwii_iface_dispatch`: `0` on success
with the buffer filled, `-EAGAIN` when no event is available, and another
negative errno on failure (surfaced through `last_os_error`). -/
def lastOsError (resCode : Int) : Nat := (-resCode).toNat

/-- `EventStream::poll_next` (`src/events.rs`, lines 499-538), with the
dispatch outcome (`resCode`, filled buffer `buf`) and the caller's waker
as inputs.  Returns the stream state, the reactor state, the poll
outcome, and the number of `Reactor::remove_interest` calls made. -/
def EventStream.pollNext (st : EventStreamState) (fd : Nat) (r : ReactorState)
    (resCode : Int) (buf : RawEvent) (waker : Nat) :
    EventStreamState × ReactorState × StreamPoll × Nat :=
  if st.haveInterest = false then
    (st, r, .ready none, 0)
  else if resCode = 0 then
    if buf.type_ = XWII_EVENT_GONE then
      match EventStream.removeInterestOp st fd r with
      | (st1, r1, .error e, n) => (st1, r1, .ready (some (.error (.os e))), n)
      | (st1, r1, .ok _, n) => (st1, r1, .ready none, n)
    else
      match Event.parse buf with
      | .error f => (st, r, .ready (some (.error (.decode f))), 0)
      | .ok item => (st, r, .ready (some (.ok item)), 0)
  else if resCode = -(EAGAIN : Int) then
    (st, Reactor.setCallback r { fd := fd, events := streamEpollEvents } waker, .pending, 0)
  else
    (st, r, .ready (some (.error (.os (lastOsError resCode)))), 0)

/-- One abstract operation performed on an event stream: a poll with a
given dispatch outcome, or disposal (`Drop`). -/
inductive StreamOp where
  | poll (resCode : Int) (buf : RawEvent) (waker : Nat)
  | dispose

/-- Apply one stream operation, accumulating the deregistration count. -/
def streamStep (fd : Nat) (acc : EventStreamState × ReactorState × Nat) (op : StreamOp) :
    EventStreamState × ReactorState × Nat :=
  match op with
  | .poll resCode buf waker =>
      match EventStream.pollNext acc.1 fd acc.2.1 resCode buf waker with
      | (st1, r1, _, n) => (st1, r1, acc.2.2 + n)
  | .dispose =>
      match EventStream.removeInterestOp acc.1 fd acc.2.1 with
      | (st1, r1, _, n) => (st1, r1, acc.2.2 + n)

/-- Run a sequence of stream operations from a given configuration. -/
def streamRun (fd : Nat) (acc : EventStreamState × ReactorState × Nat)
    (ops : List StreamOp) : EventStreamState × ReactorState × Nat :=
  ops.foldl (streamStep fd) acc

-- The discovery monitor (`src/lib.rs`, lines 135-234).

/-- `Monitor::HOTPLUG_EVENTS = EPOLLIN | EPOLLHUP | EPOLLPRI`. -/
def hotplugEvents : Nat := EPOLLIN ||| EPOLLHUP ||| EPOLLPRI

/-- The `Monitor` state (`src/lib.rs`, lines 135-142): the optional
hot-plug descriptor (present only in discovery mode) and the
"enumeration complete" flag.  The opaque udev handle carries no
machine state. -/
structure MonitorState where
  monFd : Option Nat
  enumerated : Bool
deriving DecidableEq

/-- `Monitor::new` (`src/lib.rs`, lines 147-157), with the descriptor the
underlying `xwii_monitor_get_fd` call would return as a parameter. -/
def Monitor.new (discover : Bool) (fd : Nat) : MonitorState :=
  { monFd := if discover then some fd else none, enumerated := false }

/-- The collaborator queue of raw `xwii_monitor_poll` results: each call
pops the head; an exhausted queue keeps answering null ("no device"). -/
def monPoll (mq : List (Option Nat)) : Option Nat × List (Option Nat) :=
  match mq with
  | [] => (none, [])
  | x :: rest => (x, rest)

/-- The outcome of one `poll_next` call on the discovery stream. -/
inductive MonitorPoll where
  | pending
  | ready (item : Option (Except Nat Nat))
deriving DecidableEq

/-- The `self.enumerated` branch of `Monitor::poll_next` (`src/lib.rs`,
lines 176-193): with no hot-plug descriptor the stream is done without
touching the monitor; otherwise poll once and either yield the address or
store the waker and suspend. -/
def Monitor.pollDiscover (m : MonitorState) (r : ReactorState)
    (mq : List (Option Nat)) (waker : Nat) :
    MonitorState × ReactorState × List (Option Nat) × MonitorPoll :=
  match m.monFd with
  | none => (m, r, mq, .ready none)
  | some fd =>
      match monPoll mq with
      | (none, mq1) =>
          (m, Reactor.setCallback r { fd := fd, events := hotplugEvents } waker, mq1, .pending)
      | (some a, mq1) => (m, r, mq1, .ready (some (.ok a)))

/-- `Monitor::poll_next` (`src/lib.rs`, lines 175-221).  In the
enumeration phase a null result sets `enumerated`, and in discovery mode
registers the hot-plug interest and immediately re-polls once — the
recursive `self.poll_next(cx)` call runs with `enumerated = true`, which
is exactly the `pollDiscover` branch. -/
def Monitor.pollNext (m : MonitorState) (r : ReactorState)
    (mq : List (Option Nat)) (waker : Nat) :
    MonitorState × ReactorState × List (Option Nat) × MonitorPoll :=
  if m.enumerated then
    Monitor.pollDiscover m r mq waker
  else
    match monPoll mq with
    | (some a, mq1) => (m, r, mq1, .ready (some (.ok a)))
    | (none, mq1) =>
        let m1 : MonitorState := { m with enumerated := true }
        match m1.monFd with
        | some fd =>
            match Reactor.addInterest r { fd := fd, events := hotplugEvents } with
            | .error e => (m1, r, mq1, .ready (some (.error e)))
            | .ok r1 => Monitor.pollDiscover m1 r1 mq1 waker
        | none => (m1, r, mq1, .ready none)

/-- The externally visible steps taken by `Monitor`'s `Drop` impl. -/
inductive DropAction where
  | deregister (fd : Nat)
  | unrefHandle
deriving DecidableEq

/-- `impl Drop for Monitor` (`src/lib.rs`, lines 223-234): when a
hot-plug descriptor is present, remove the interest first; a failure
there panics through `expect`, so the handle is never released in that
case.  Returns the reactor state, the action trace in order, and
whether the drop panicked. -/
def Monitor.drop (m : MonitorState) (r : ReactorState) :
    ReactorState × List DropAction × Bool :=
  match m.monFd with
  | some fd =>
      match Reactor.removeInterest r { fd := fd, events := hotplugEvents } with
      | .error _ => (r, [.deregister fd], true)
      | .ok (r1, _) => (r1, [.deregister fd, .unrefHandle], false)
  | none => (r, [.unrefHandle], false)

-- Shared lemmas about the registry and the kernel interest list.

theorem regLookup_eq_some_of_mem {r : Registry} {i : Interest} {w : Nat}
    (hwf : regWF r) (hmem : (i, w) ∈ r) : regLookup r i = some w := by
  induction r with
  | nil => cases hmem
  | cons hd tl ih =>
      obtain ⟨k, v⟩ := hd
      simp only [regWF, List.map_cons, List.nodup_cons] at hwf
      rcases List.mem_cons.mp hmem with heq | htl
      · injection heq with h1 h2
        subst h1
        simp [regLookup, h2]
      · have hk : k ≠ i := by
          intro hki
          exact hwf.1 (hki ▸ (List.mem_map.mpr ⟨(i, w), htl, rfl⟩))
        simp only [regLookup, if_neg hk]
        exact ih hwf.2 htl

theorem regLookup_eq_none_iff {r : Registry} {i : Interest} :
    regLookup r i = none ↔ ∀ w, (i, w) ∉ r := by
  induction r with
  | nil => simp [regLookup]
  | cons hd tl ih =>
      obtain ⟨k, v⟩ := hd
      by_cases hk : k = i
      · subst hk
        simp only [regLookup, if_pos rfl]
        constructor
        · intro h
          exact Option.noConfusion h
        · intro h
          exact False.elim ((h v) (List.mem_cons_self (k, v) tl))
      · simp only [regLookup, if_neg hk, ih, List.mem_cons]
        constructor
        · intro h w hw
          rcases hw with heq | htl
          · exact hk (Prod.ext_iff.mp heq).1.symm
          · exact h w htl
        · intro h w htl
          exact h w (Or.inr htl)

theorem mem_regErase {r : Registry} {i j : Interest} {w : Nat} :
    (j, w) ∈ regErase r i ↔ (j, w) ∈ r ∧ j ≠ i := by
  simp [regErase, List.mem_filter]

theorem regWF_regErase {r : Registry} (hwf : regWF r) (i : Interest) :
    regWF (regErase r i) := by
  have hsub : List.Sublist (regErase r i) r := List.filter_sublist r
  exact List.Nodup.sublist (hsub.map Prod.fst) hwf

theorem kernelHas_filter_self (l : List (Nat × Nat)) (fd : Nat) :
    (l.filter (fun p => decide (p.1 ≠ fd))).any (fun p => p.1 = fd) = false := by
  induction l with
  | nil => rfl
  | cons hd tl ih =>
      by_cases h : hd.1 = fd
      · simp [List.filter, h, ih]
      · simp [List.filter, h, ih]

theorem regLookup_regErase_self (r : Registry) (i : Interest) :
    regLookup (regErase r i) i = none := by
  rw [regLookup_eq_none_iff]
  intro w hw
  exact (mem_regErase.mp hw).2 rfl

theorem removeInterest_error_eq {s : ReactorState} {i : Interest} {e : Nat}
    (h : Reactor.removeInterest s i = .error e) : e = ENOENT := by
  unfold Reactor.removeInterest epollCtlDel at h
  by_cases hk : kernelHas s i.fd
  · simp [hk] at h
  · simp only [hk, Bool.false_eq_true, if_false] at h
    exact (Except.error.inj h).symm

theorem removeInterestOp_error_eq {st : EventStreamState} {fd : Nat} {r : ReactorState}
    {st1 : EventStreamState} {r1 : ReactorState} {e : Nat} {n : Nat}
    (h : EventStream.removeInterestOp st fd r = (st1, r1, .error e, n)) : e = ENOENT := by
  unfold EventStream.removeInterestOp at h
  by_cases hst : st.haveInterest
  · simp only [hst, if_true] at h
    cases hrem : Reactor.removeInterest r { fd := fd, events := streamEpollEvents } with
    | error e2 =>
        rw [hrem] at h
        have he : Except.error e2 = (Except.error e : Except Nat Unit) := congrArg (·.2.2.1) h
        have he2 : e2 = e := Except.error.inj he
        exact he2 ▸ removeInterest_error_eq hrem
    | ok p =>
        rw [hrem] at h
        have he : Except.ok () = (Except.error e : Except Nat Unit) := congrArg (·.2.2.1) h
        exact Except.noConfusion he
  · simp only [hst, Bool.false_eq_true, if_false] at h
    have he : Except.ok () = (Except.error e : Except Nat Unit) := congrArg (·.2.2.1) h
    exact Except.noConfusion he

-- Claim theorems.

/-- C1 counterexample: a continuation stored on fd 3 under the mask
EPOLLIN|EPOLLHUP|EPOLLPRI (= 19) and a ready event on fd 3 reporting just
EPOLLIN (= 1) — a mask that matches the registration (1 &&& 19 ≠ 0) — is
not invoked and not removed by the wake pass, because `wake_ready` keys
the registry removal on the exact (fd, reported mask) pair. -/
theorem wakeReady_matching_mask_not_woken :
    1 &&& 19 ≠ 0 ∧
    Reactor.wakeReady { kernelSet := [(3, 2147483667)], wakers := [(⟨3, 19⟩, 7)] }
        [{ events := 1, u64 := 3 }] =
      ({ kernelSet := [(3, 2147483667)], wakers := [(⟨3, 19⟩, 7)] }, []) := by
  decide

/-- C1 (amended): for each ready event, the wake pass reconstructs the
Interest as (fd = event datum, events = kernel-reported mask) and, exactly
when the registry stores a continuation under that exact key, removes the
entry and invokes the continuation exactly once; a continuation stored
under any other mask on the same descriptor is left untouched. -/
theorem wakeReady_exact_key (s : ReactorState) (ev : EpollEvent) (hwf : regWF s.wakers) :
    (∀ w, (Interest.ofEpollEvent ev, w) ∈ s.wakers →
      Reactor.wakeReady s [ev] =
        ({ s with wakers := regErase s.wakers (Interest.ofEpollEvent ev) }, [w])) ∧
    (regLookup s.wakers (Interest.ofEpollEvent ev) = none →
      Reactor.wakeReady s [ev] = (s, [])) := by
  constructor
  · intro w hmem
    have hlook := regLookup_eq_some_of_mem hwf hmem
    simp [Reactor.wakeReady, wakeStep, hlook]
  · intro hnone
    simp [Reactor.wakeReady, wakeStep, hnone]

/-- C1 witness: with the continuation stored under exactly the reported
(fd, mask) key, the wake pass removes and invokes it once. -/
theorem wakeReady_exact_key_witness :
    Reactor.wakeReady { kernelSet := [], wakers := [(⟨3, 19⟩, 7)] }
        [{ events := 19, u64 := 3 }] =
      ({ kernelSet := [], wakers := [] }, [7]) := by
  have h := (wakeReady_exact_key { kernelSet := [], wakers := [(⟨3, 19⟩, 7)] }
    { events := 19, u64 := 3 } (by unfold regWF; decide)).1 7 (by decide)
  rw [h]
  decide

/-- C2: calling `remove_interest(i)` on a registered descriptor while a
continuation is stored for `i` succeeds, invokes (wakes) exactly that
continuation as part of removal, and leaves no stored continuation
for `i`. -/
theorem removeInterest_wakes_pending (s : ReactorState) (i : Interest) (w : Nat)
    (hreg : kernelHas s i.fd = true) (hwf : regWF s.wakers) (hstored : (i, w) ∈ s.wakers) :
    ∃ s2, Reactor.removeInterest s i = .ok (s2, some w) ∧
      regLookup s2.wakers i = none := by
  have hlook := regLookup_eq_some_of_mem hwf hstored
  refine ⟨{ kernelSet := s.kernelSet.filter (fun p => decide (p.1 ≠ i.fd)),
            wakers := regErase s.wakers i }, ?_, ?_⟩
  · simp [Reactor.removeInterest, epollCtlDel, hreg, hlook]
  · exact regLookup_regErase_self s.wakers i

/-- C2 witness. -/
theorem removeInterest_wakes_pending_witness :
    ∃ s2, Reactor.removeInterest { kernelSet := [(3, 2147483667)], wakers := [(⟨3, 19⟩, 7)] }
        ⟨3, 19⟩ = .ok (s2, some 7) ∧ regLookup s2.wakers ⟨3, 19⟩ = none :=
  removeInterest_wakes_pending { kernelSet := [(3, 2147483667)], wakers := [(⟨3, 19⟩, 7)] }
    ⟨3, 19⟩ 7 (by decide) (by unfold regWF; decide) (by decide)

/-- C5: after a successful `add_interest(i)`, a second `add_interest(i)`
fails synchronously with the registration-conflict error `EEXIST`, and
after an intervening `remove_interest(i)` a third `add_interest(i)`
succeeds. -/
theorem addInterest_twice_conflicts_remove_recovers
    (s : ReactorState) (i : Interest) (s1 : ReactorState)
    (h1 : Reactor.addInterest s i = .ok s1) :
    Reactor.addInterest s1 i = .error EEXIST ∧
    ∃ s2 ow, Reactor.removeInterest s1 i = .ok (s2, ow) ∧
      ∃ s3, Reactor.addInterest s2 i = .ok s3 := by
  unfold Reactor.addInterest epollCtlAdd at h1
  by_cases h : kernelHas s i.fd
  · simp [h] at h1
  · simp only [h, Bool.false_eq_true, if_false, Except.ok.injEq] at h1
    have hhas : kernelHas s1 i.fd = true := by
      subst h1
      simp [kernelHas]
    constructor
    · simp [Reactor.addInterest, epollCtlAdd, hhas]
    · subst h1
      set s2 : ReactorState :=
        { kernelSet := List.filter (fun p => decide (p.1 ≠ i.fd))
            ((i.fd, i.toEpollEvent.events) :: s.kernelSet),
          wakers := regErase s.wakers i } with hs2
      have hrem : Reactor.removeInterest
          { kernelSet := (i.fd, i.toEpollEvent.events) :: s.kernelSet, wakers := s.wakers } i =
          .ok (s2, regLookup s.wakers i) := by
        simp [Reactor.removeInterest, epollCtlDel, hhas, hs2]
      have hgone : kernelHas s2 i.fd = false := by
        rw [hs2]
        simp only [kernelHas]
        exact kernelHas_filter_self _ i.fd
      refine ⟨s2, regLookup s.wakers i, hrem,
        ⟨{ s2 with kernelSet := (i.fd, i.toEpollEvent.events) :: s2.kernelSet }, ?_⟩⟩
      simp [Reactor.addInterest, epollCtlAdd, hgone]

/-- C5 witness. -/
theorem addInterest_twice_conflicts_remove_recovers_witness :
    Reactor.addInterest { kernelSet := [(3, 2147483667)], wakers := [] } ⟨3, 19⟩ =
      .error EEXIST ∧
    ∃ s2 ow, Reactor.removeInterest { kernelSet := [(3, 2147483667)], wakers := [] }
        ⟨3, 19⟩ = .ok (s2, ow) ∧
      ∃ s3, Reactor.addInterest s2 ⟨3, 19⟩ = .ok s3 :=
  addInterest_twice_conflicts_remove_recovers { kernelSet := [], wakers := [] } ⟨3, 19⟩
    { kernelSet := [(3, 2147483667)], wakers := [] } (by rfl)

/-- C10: `EventStream::new` registers interest in the device descriptor
eagerly at construction, so while a live stream's interest is still
registered, constructing a second stream over the same descriptor fails
with the registration-conflict OS error. -/
theorem eventStreamNew_second_conflicts (fd : Nat) (r : ReactorState)
    (hfree : kernelHas r fd = false) :
    ∃ st1 r1, EventStream.new fd r = .ok (st1, r1) ∧ kernelHas r1 fd = true ∧
      EventStream.new fd r1 = .error EEXIST := by
  refine ⟨{ haveInterest := true },
    { r with kernelSet :=
        (fd, (streamEpollEvents : Nat) ||| EPOLLET) :: r.kernelSet }, ?_, ?_, ?_⟩
  · simp [EventStream.new, Reactor.addInterest, epollCtlAdd, hfree, Interest.toEpollEvent]
  · simp [kernelHas]
  · have hhas : kernelHas
        { r with kernelSet := (fd, (streamEpollEvents : Nat) ||| EPOLLET) :: r.kernelSet }
        fd = true := by
      simp [kernelHas]
    simp [EventStream.new, Reactor.addInterest, epollCtlAdd, hhas]

/-- C10 witness. -/
theorem eventStreamNew_second_conflicts_witness :
    ∃ st1 r1, EventStream.new 5 { kernelSet := [], wakers := [] } = .ok (st1, r1) ∧
      kernelHas r1 5 = true ∧ EventStream.new 5 r1 = .error EEXIST :=
  eventStreamNew_second_conflicts 5 { kernelSet := [], wakers := [] } (by decide)

/-- C9: decoding an IR record whose slots 1 and 3 carry the missing-source
sentinel coordinate yields exactly two present sources, at indices 0 and 2
of the 4-slot result; and each decoded slot depends only on the same slot
of the record, so slot identity is preserved across successive decodes. -/
theorem irParse_sentinel_slots (raw : RawEvent)
    (h0x : (raw.abs 0).x ≠ MISSING_SOURCE) (h0y : (raw.abs 0).y ≠ MISSING_SOURCE)
    (h1s : (raw.abs 1).x = MISSING_SOURCE ∨ (raw.abs 1).y = MISSING_SOURCE)
    (h2x : (raw.abs 2).x ≠ MISSING_SOURCE) (h2y : (raw.abs 2).y ≠ MISSING_SOURCE)
    (h3s : (raw.abs 3).x = MISSING_SOURCE ∨ (raw.abs 3).y = MISSING_SOURCE) :
    IrSource.parse raw =
      [some { x := (raw.abs 0).x, y := (raw.abs 0).y }, none,
        some { x := (raw.abs 2).x, y := (raw.abs 2).y }, none] ∧
    (∀ (raw2 : RawEvent) (ix : Nat), ix < MAX_IR_SOURCES →
      (IrSource.parse raw2)[ix]? =
        some (if (raw2.abs ix).x ≠ MISSING_SOURCE ∧ (raw2.abs ix).y ≠ MISSING_SOURCE then
          some { x := (raw2.abs ix).x, y := (raw2.abs ix).y } else none)) := by
  constructor
  · have c1 : ¬((raw.abs 1).x ≠ MISSING_SOURCE ∧ (raw.abs 1).y ≠ MISSING_SOURCE) := by
      rcases h1s with h | h <;> simp [h]
    have c3 : ¬((raw.abs 3).x ≠ MISSING_SOURCE ∧ (raw.abs 3).y ≠ MISSING_SOURCE) := by
      rcases h3s with h | h <;> simp [h]
    simp [IrSource.parse, MAX_IR_SOURCES, List.range_succ, h0x, h0y, h2x, h2y, c1, c3]
  · intro raw2 ix hix
    simp only [IrSource.parse, List.getElem?_map, List.getElem?_range hix]
    rfl

/-- A concrete IR record: slots 1 and 3 carry the missing-source sentinel,
slots 0 and 2 carry ordinary readings. -/
def irWitnessRaw : RawEvent :=
  { tvSec := 0, tvUsec := 0, type_ := XWII_EVENT_IR, key := { code := 0, state := 0 },
    abs := fun ix =>
      if ix = 1 then { x := 1023, y := 1023, z := 0 }
      else if ix = 3 then { x := 1023, y := 7, z := 0 }
      else { x := 10, y := 20, z := 0 } }

/-- C9 witness: the concrete record decodes to present sources exactly at
indices 0 and 2. -/
theorem irParse_sentinel_slots_witness :
    IrSource.parse irWitnessRaw =
      [some { x := (irWitnessRaw.abs 0).x, y := (irWitnessRaw.abs 0).y }, none,
        some { x := (irWitnessRaw.abs 2).x, y := (irWitnessRaw.abs 2).y }, none] :=
  (irParse_sentinel_slots irWitnessRaw (by decide) (by decide) (by decide)
    (by decide) (by decide) (by decide)).1

/-- C4: on disposal of a Monitor, when the hot-plug descriptor is present
and its interest registered, drop deregisters it and the deregistration
action precedes the release of the monitor handle; when the descriptor is
present but was never registered, the removal attempt fails, nothing is
deregistered (the reactor is unchanged) and the handle release is never
reached; without a hot-plug descriptor only the handle is released. -/
theorem monitorDrop_dereg_iff_registered (r : ReactorState) :
    (∀ (fd : Nat) (e : Bool), kernelHas r fd = true →
      ∃ r1 ow,
        Reactor.removeInterest r { fd := fd, events := hotplugEvents } = .ok (r1, ow) ∧
        Monitor.drop { monFd := some fd, enumerated := e } r =
          (r1, [.deregister fd, .unrefHandle], false) ∧
        kernelHas r1 fd = false) ∧
    (∀ (fd : Nat) (e : Bool), kernelHas r fd = false →
      Monitor.drop { monFd := some fd, enumerated := e } r = (r, [.deregister fd], true)) ∧
    (∀ e : Bool, Monitor.drop { monFd := none, enumerated := e } r =
      (r, [.unrefHandle], false)) := by
  refine ⟨?_, ?_, ?_⟩
  · intro fd e hreg
    set i : Interest := { fd := fd, events := hotplugEvents } with hi
    set r1 : ReactorState :=
      { kernelSet := r.kernelSet.filter (fun p => decide (p.1 ≠ fd)),
        wakers := regErase r.wakers i } with hr1
    have hrem : Reactor.removeInterest r i = .ok (r1, regLookup r.wakers i) := by
      simp [Reactor.removeInterest, epollCtlDel, hi, hreg, hr1]
    refine ⟨r1, regLookup r.wakers i, hrem, ?_, ?_⟩
    · simp [Monitor.drop, hrem]
    · rw [hr1]
      simp only [kernelHas]
      exact kernelHas_filter_self _ fd
  · intro fd e hfree
    have hrem : Reactor.removeInterest r { fd := fd, events := hotplugEvents } =
        .error ENOENT := by
      simp [Reactor.removeInterest, epollCtlDel, hfree]
    simp [Monitor.drop, hrem]
  · intro e
    rfl

/-- C4 witness. -/
theorem monitorDrop_dereg_iff_registered_witness :
    (∃ r1 ow,
      Reactor.removeInterest { kernelSet := [(4, 2147483667)], wakers := [] }
          { fd := 4, events := hotplugEvents } = .ok (r1, ow) ∧
      Monitor.drop { monFd := some 4, enumerated := true }
          { kernelSet := [(4, 2147483667)], wakers := [] } =
        (r1, [.deregister 4, .unrefHandle], false) ∧
      kernelHas r1 4 = false) ∧
    Monitor.drop { monFd := some 4, enumerated := false }
        { kernelSet := [], wakers := [] } =
      ({ kernelSet := [], wakers := [] }, [.deregister 4], true) ∧
    Monitor.drop { monFd := none, enumerated := true }
        { kernelSet := [], wakers := [] } =
      ({ kernelSet := [], wakers := [] }, [.unrefHandle], false) :=
  ⟨(monitorDrop_dereg_iff_registered { kernelSet := [(4, 2147483667)], wakers := [] }).1
      4 true (by decide),
    (monitorDrop_dereg_iff_registered { kernelSet := [], wakers := [] }).2.1
      4 false (by decide),
    (monitorDrop_dereg_iff_registered { kernelSet := [], wakers := [] }).2.2 true⟩

/-- C6: an empty enumeration result ends the phase: in discovery mode the
hot-plug interest is registered with the Reactor, the state moves to the
enumerated (discovering) phase, and the poll immediately re-polls once
through the discovering branch; without discovery mode the poll yields
end-of-sequence; a non-discovery monitor over addresses [A, B] yields A,
then B, then end-of-sequence for ever after; and no poll of a
non-discovery monitor ever returns the waiting (pending) state. -/
theorem monitorPoll_phase_end (fd : Nat) (r : ReactorState) (mq : List (Option Nat))
    (w : Nat) (hfree : kernelHas r fd = false) :
    (Monitor.pollNext { monFd := some fd, enumerated := false } r (none :: mq) w =
      Monitor.pollDiscover { monFd := some fd, enumerated := true }
        { r with kernelSet := (fd, (hotplugEvents : Nat) ||| EPOLLET) :: r.kernelSet }
        mq w) ∧
    (Monitor.pollNext { monFd := none, enumerated := false } r (none :: mq) w =
      ({ monFd := none, enumerated := true }, r, mq, .ready none)) ∧
    (∀ a b : Nat,
      Monitor.pollNext { monFd := none, enumerated := false } r [some a, some b] w =
        ({ monFd := none, enumerated := false }, r, [some b], .ready (some (.ok a))) ∧
      Monitor.pollNext { monFd := none, enumerated := false } r [some b] w =
        ({ monFd := none, enumerated := false }, r, [], .ready (some (.ok b))) ∧
      Monitor.pollNext { monFd := none, enumerated := false } r [] w =
        ({ monFd := none, enumerated := true }, r, [], .ready none)) ∧
    (∀ (e : Bool) (r2 : ReactorState) (mq2 : List (Option Nat)) (w2 : Nat),
      (Monitor.pollNext { monFd := none, enumerated := e } r2 mq2 w2).2.2.2 ≠
        MonitorPoll.pending) ∧
    (∀ mq2, Monitor.pollNext { monFd := none, enumerated := true } r mq2 w =
      ({ monFd := none, enumerated := true }, r, mq2, .ready none)) := by
  refine ⟨?_, rfl, fun a b => ⟨rfl, rfl, rfl⟩, ?_, fun mq2 => rfl⟩
  · have hadd : Reactor.addInterest r { fd := fd, events := hotplugEvents } =
        .ok { r with kernelSet := (fd, (hotplugEvents : Nat) ||| EPOLLET) :: r.kernelSet } := by
      simp [Reactor.addInterest, epollCtlAdd, Interest.toEpollEvent, hfree]
    simp [Monitor.pollNext, monPoll, hadd]
  · intro e r2 mq2 w2
    rcases mq2 with _ | ⟨_ | a, rest⟩ <;> cases e <;>
      simp [Monitor.pollNext, Monitor.pollDiscover, monPoll]

/-- C6 witness. -/
theorem monitorPoll_phase_end_witness :
    Monitor.pollNext { monFd := some 4, enumerated := false }
        { kernelSet := [], wakers := [] } [none] 0 =
      Monitor.pollDiscover { monFd := some 4, enumerated := true }
        { kernelSet := [(4, (hotplugEvents : Nat) ||| EPOLLET)], wakers := [] } [] 0 :=
  (monitorPoll_phase_end 4 { kernelSet := [], wakers := [] } [] 0 (by decide)).1

/-- C7: on a would-block dispatch result (code `-EAGAIN`) the poll stores
the caller's continuation in the Reactor registry under the
(readable|hangup|priority) interest key via `set_callback` and suspends,
producing neither a value nor an error on that call; and no poll outcome
ever surfaces the would-block errno as a stream error. -/
theorem pollNext_wouldBlock_suspends (fd : Nat) (r : ReactorState)
    (buf : RawEvent) (waker : Nat) :
    EventStream.pollNext { haveInterest := true } fd r (-(EAGAIN : Int)) buf waker =
      ({ haveInterest := true },
        Reactor.setCallback r { fd := fd, events := streamEpollEvents } waker,
        StreamPoll.pending, 0) ∧
    (∀ (st : EventStreamState) (r2 : ReactorState) (resCode : Int) (buf2 : RawEvent)
        (w2 : Nat),
      (EventStream.pollNext st fd r2 resCode buf2 w2).2.2.1 ≠
        StreamPoll.ready (some (.error (.os EAGAIN)))) := by
  constructor
  · simp [EventStream.pollNext, EAGAIN]
  · intro st r2 resCode buf2 w2
    unfold EventStream.pollNext
    by_cases hst : st.haveInterest = false
    · rw [if_pos hst]
      simp
    · rw [if_neg hst]
      by_cases h0 : resCode = 0
      · rw [if_pos h0]
        by_cases hg : buf2.type_ = XWII_EVENT_GONE
        · rw [if_pos hg]
          rcases hop : EventStream.removeInterestOp st fd r2 with ⟨st1, r1, res, n⟩
          cases res with
          | error e =>
              have he := removeInterestOp_error_eq hop
              subst he
              simp [ENOENT, EAGAIN]
          | ok u => simp
        · rw [if_neg hg]
          cases hp : Event.parse buf2 <;> simp
      · rw [if_neg h0]
        by_cases hag : resCode = -(EAGAIN : Int)
        · rw [if_pos hag]
          simp
        · rw [if_neg hag]
          simp only [ne_eq, StreamPoll.ready.injEq, Option.some.injEq]
          intro hcontra
          have hos : lastOsError resCode = EAGAIN := by
            injection hcontra with h1
            injection h1
          rw [lastOsError, EAGAIN] at hos
          rw [EAGAIN] at hag
          omega

-- The deregistration-count bookkeeping for the event stream machine.

theorem removeInterestOp_count (st : EventStreamState) (fd : Nat) (r : ReactorState) :
    (EventStream.removeInterestOp st fd r).1.haveInterest = false ∧
    (EventStream.removeInterestOp st fd r).2.2.2 =
      (if st.haveInterest then 1 else 0) := by
  unfold EventStream.removeInterestOp
  by_cases hst : st.haveInterest
  · cases hrem : Reactor.removeInterest r { fd := fd, events := streamEpollEvents } with
    | error e => simp [hst, hrem]
    | ok p => simp [hst, hrem]
  · simp only [Bool.not_eq_true] at hst
    simp [hst]

theorem pollNext_count (st : EventStreamState) (fd : Nat) (r : ReactorState)
    (resCode : Int) (buf : RawEvent) (w : Nat) :
    ((EventStream.pollNext st fd r resCode buf w).1.haveInterest = true →
      ((EventStream.pollNext st fd r resCode buf w).2.2.2 = 0 ∧
        st.haveInterest = true)) ∧
    (EventStream.pollNext st fd r resCode buf w).2.2.2 ≤
      (if st.haveInterest then 1 else 0) := by
  unfold EventStream.pollNext
  by_cases hst : st.haveInterest = false
  · simp [hst]
  · simp only [Bool.not_eq_false] at hst
    rw [if_neg (by simp [hst])]
    by_cases h0 : resCode = 0
    · rw [if_pos h0]
      by_cases hg : buf.type_ = XWII_EVENT_GONE
      · rw [if_pos hg]
        have hcount := removeInterestOp_count st fd r
        rcases hop : EventStream.removeInterestOp st fd r with ⟨st1, r1, res, n⟩
        rw [hop] at hcount
        cases res with
        | error e =>
            simp only at hcount
            simp [hcount.1, hcount.2, hst]
        | ok u =>
            simp only at hcount
            simp [hcount.1, hcount.2, hst]
      · rw [if_neg hg]
        cases hp : Event.parse buf <;> simp [hst]
    · rw [if_neg h0]
      by_cases hag : resCode = -(EAGAIN : Int)
      · rw [if_pos hag]
        simp [hst]
      · rw [if_neg hag]
        simp [hst]

/-- The invariant tying the interest flag to the cumulative count of
`Reactor::remove_interest` calls made by the stream. -/
def streamInv (acc : EventStreamState × ReactorState × Nat) : Prop :=
  (acc.1.haveInterest = true → acc.2.2 = 0) ∧ acc.2.2 ≤ 1

theorem streamStep_inv (fd : Nat) (acc : EventStreamState × ReactorState × Nat)
    (op : StreamOp) (h : streamInv acc) : streamInv (streamStep fd acc op) := by
  obtain ⟨st, r, n0⟩ := acc
  obtain ⟨h1, h2⟩ := h
  simp only at h1 h2
  cases op with
  | poll resCode buf w =>
      rcases hpn : EventStream.pollNext st fd r resCode buf w with ⟨st1, r1, out, n⟩
      have hc := pollNext_count st fd r resCode buf w
      rw [hpn] at hc
      simp only at hc
      have hstep : streamStep fd (st, r, n0) (StreamOp.poll resCode buf w) =
          (st1, r1, n0 + n) := by
        simp only [streamStep]
        rw [hpn]
      rw [hstep]
      constructor
      · intro hh
        simp only at hh ⊢
        obtain ⟨hn0, hact⟩ := hc.1 hh
        have hz := h1 hact
        omega
      · simp only
        by_cases hact : st.haveInterest
        · have hn : n ≤ 1 := by simpa [hact] using hc.2
          have hz : n0 = 0 := h1 hact
          omega
        · simp only [Bool.not_eq_true] at hact
          have hn : n ≤ 0 := by simpa [hact] using hc.2
          omega
  | dispose =>
      rcases hop : EventStream.removeInterestOp st fd r with ⟨st1, r1, res, n⟩
      have hc := removeInterestOp_count st fd r
      rw [hop] at hc
      simp only at hc
      have hstep : streamStep fd (st, r, n0) StreamOp.dispose = (st1, r1, n0 + n) := by
        simp only [streamStep]
        rw [hop]
      rw [hstep]
      constructor
      · intro hh
        simp only at hh
        rw [hh] at hc
        exact absurd hc.1 (by simp)
      · simp only
        by_cases hact : st.haveInterest
        · have hn : n = 1 := by simpa [hact] using hc.2
          have hz : n0 = 0 := h1 hact
          omega
        · simp only [Bool.not_eq_true] at hact
          have hn : n = 0 := by simpa [hact] using hc.2
          omega

theorem streamRun_inv (fd : Nat) (ops : List StreamOp)
    (acc : EventStreamState × ReactorState × Nat) (h : streamInv acc) :
    streamInv (streamRun fd acc ops) := by
  induction ops generalizing acc with
  | nil => exact h
  | cons op rest ih => exact ih (streamStep fd acc op) (streamStep_inv fd acc op h)

/-- C3: the Closed state of the event stream is terminal — with the
interest flag cleared every poll yields end-of-sequence immediately and
changes nothing; observing the device-gone sentinel clears the flag, as
does disposal; and across any sequence of polls and disposals starting
from a fresh stream, the Reactor interest is deregistered at most once in
total, guarded by the boolean flag. -/
theorem eventStream_closed_terminal (fd : Nat) :
    (∀ (r : ReactorState) (resCode : Int) (buf : RawEvent) (w : Nat),
      EventStream.pollNext { haveInterest := false } fd r resCode buf w =
        ({ haveInterest := false }, r, .ready none, 0)) ∧
    (∀ (st : EventStreamState) (r : ReactorState) (buf : RawEvent) (w : Nat),
      buf.type_ = XWII_EVENT_GONE →
      (EventStream.pollNext st fd r 0 buf w).1.haveInterest = false) ∧
    (∀ (st : EventStreamState) (r : ReactorState),
      (EventStream.removeInterestOp st fd r).1.haveInterest = false) ∧
    (∀ (r : ReactorState) (ops : List StreamOp),
      (streamRun fd ({ haveInterest := true }, r, 0) ops).2.2 ≤ 1) := by
  refine ⟨fun r resCode buf w => rfl, ?_, ?_, ?_⟩
  · intro st r buf w hg
    unfold EventStream.pollNext
    by_cases hst : st.haveInterest = false
    · rw [if_pos hst]
      exact hst
    · rw [if_neg hst, if_pos rfl, if_pos hg]
      rcases hop : EventStream.removeInterestOp st fd r with ⟨st1, r1, res, n⟩
      have hc := (removeInterestOp_count st fd r).1
      rw [hop] at hc
      simp only at hc
      cases res <;> simpa using hc
  · intro st r
    exact (removeInterestOp_count st fd r).1
  · intro r ops
    exact (streamRun_inv fd ops ({ haveInterest := true }, r, 0)
      ⟨fun _ => rfl, Nat.zero_le 1⟩).2

/-- A concrete raw record carrying the device-gone sentinel tag. -/
def goneRaw : RawEvent :=
  { tvSec := 0, tvUsec := 0, type_ := XWII_EVENT_GONE, key := { code := 0, state := 0 },
    abs := fun _ => { x := 0, y := 0, z := 0 } }

/-- C3 witness: observing the device-gone sentinel on a fresh stream
clears the interest flag. -/
theorem eventStream_closed_terminal_witness :
    (EventStream.pollNext { haveInterest := true } 5 { kernelSet := [], wakers := [] }
      0 goneRaw 9).1.haveInterest = false :=
  (eventStream_closed_terminal 5).2.1 { haveInterest := true }
    { kernelSet := [], wakers := [] } goneRaw 9 rfl

/-- C8: decoding faults loudly rather than silently: a record whose type
tag has no match arm yields a hard decode fault naming the tag, and a
key-style payload whose key code is unknown for the selected key
enumeration, or whose key-state code is unknown, yields a hard decode
fault naming the offending code — never a default variant. -/
theorem eventParse_faults_loudly (raw : RawEvent) :
    (raw.type_ ∉ handledTags → Event.parse raw = .error (.unknownType raw.type_)) ∧
    (isKeyTag raw.type_ = true → codeKnownFor raw.type_ raw.key.code = false →
      Event.parse raw = .error (.unknownKeyCode raw.key.code)) ∧
    (isKeyTag raw.type_ = true → codeKnownFor raw.type_ raw.key.code = true →
      KeyState.fromU32 raw.key.state = none →
      Event.parse raw = .error (.unknownKeyState raw.key.state)) := by
  refine ⟨?_, ?_, ?_⟩
  · intro h
    simp only [handledTags, List.mem_cons, List.not_mem_nil, or_false, not_or] at h
    obtain ⟨e0, e1, e2, e3, e4, e5, e6, e7, e8, e9, e10, e11, e12, e13, e14, e16⟩ := h
    simp [Event.parse, XWII_EVENT_KEY, XWII_EVENT_ACCEL, XWII_EVENT_IR,
      XWII_EVENT_BALANCE_BOARD, XWII_EVENT_MOTION_PLUS, XWII_EVENT_PRO_CONTROLLER_KEY,
      XWII_EVENT_PRO_CONTROLLER_MOVE, XWII_EVENT_WATCH, XWII_EVENT_CLASSIC_CONTROLLER_KEY,
      XWII_EVENT_CLASSIC_CONTROLLER_MOVE, XWII_EVENT_NUNCHUK_KEY, XWII_EVENT_NUNCHUK_MOVE,
      XWII_EVENT_DRUMS_KEY, XWII_EVENT_DRUMS_MOVE, XWII_EVENT_GUITAR_KEY, XWII_EVENT_GONE,
      Except.map, e0, e1, e2, e3, e4, e5, e6, e7, e8, e9, e10, e11, e12, e13, e14, e16]
  · intro hk hcode
    have hk2 : raw.type_ = 0 ∨ raw.type_ = 5 ∨ raw.type_ = 8 ∨ raw.type_ = 10 ∨
        raw.type_ = 12 ∨ raw.type_ = 14 := by
      simpa [isKeyTag, XWII_EVENT_KEY, XWII_EVENT_PRO_CONTROLLER_KEY,
        XWII_EVENT_CLASSIC_CONTROLLER_KEY, XWII_EVENT_NUNCHUK_KEY, XWII_EVENT_DRUMS_KEY,
        XWII_EVENT_GUITAR_KEY] using hk
    rcases hk2 with ht | ht | ht | ht | ht | ht
    · cases hx : Key.fromU32 raw.key.code with
      | some k =>
          rw [codeKnownFor, ht] at hcode
          simp [XWII_EVENT_KEY, hx] at hcode
      | none =>
          simp [Event.parse, ht, XWII_EVENT_KEY, Except.map, parseKeyPayload, hx]
    · cases hx : ProControllerKey.fromU32 raw.key.code with
      | some k =>
          rw [codeKnownFor, ht] at hcode
          simp [XWII_EVENT_KEY, XWII_EVENT_PRO_CONTROLLER_KEY, hx] at hcode
      | none =>
          simp [Event.parse, ht, XWII_EVENT_KEY, XWII_EVENT_ACCEL, XWII_EVENT_IR,
            XWII_EVENT_BALANCE_BOARD, XWII_EVENT_MOTION_PLUS, XWII_EVENT_PRO_CONTROLLER_KEY,
            Except.map, parseKeyPayload, hx]
    · cases hx : ClassicControllerKey.fromU32 raw.key.code with
      | some k =>
          rw [codeKnownFor, ht] at hcode
          simp [XWII_EVENT_KEY, XWII_EVENT_PRO_CONTROLLER_KEY,
            XWII_EVENT_CLASSIC_CONTROLLER_KEY, hx] at hcode
      | none =>
          simp [Event.parse, ht, XWII_EVENT_KEY, XWII_EVENT_ACCEL, XWII_EVENT_IR,
            XWII_EVENT_BALANCE_BOARD, XWII_EVENT_MOTION_PLUS, XWII_EVENT_PRO_CONTROLLER_KEY,
            XWII_EVENT_PRO_CONTROLLER_MOVE, XWII_EVENT_WATCH,
            XWII_EVENT_CLASSIC_CONTROLLER_KEY, Except.map, parseKeyPayload, hx]
    · cases hx : NunchukKey.fromU32 raw.key.code with
      | some k =>
          rw [codeKnownFor, ht] at hcode
          simp [XWII_EVENT_KEY, XWII_EVENT_PRO_CONTROLLER_KEY,
            XWII_EVENT_CLASSIC_CONTROLLER_KEY, XWII_EVENT_NUNCHUK_KEY, hx] at hcode
      | none =>
          simp [Event.parse, ht, XWII_EVENT_KEY, XWII_EVENT_ACCEL, XWII_EVENT_IR,
            XWII_EVENT_BALANCE_BOARD, XWII_EVENT_MOTION_PLUS, XWII_EVENT_PRO_CONTROLLER_KEY,
            XWII_EVENT_PRO_CONTROLLER_MOVE, XWII_EVENT_WATCH,
            XWII_EVENT_CLASSIC_CONTROLLER_KEY, XWII_EVENT_CLASSIC_CONTROLLER_MOVE,
            XWII_EVENT_NUNCHUK_KEY, Except.map, parseKeyPayload, hx]
    · cases hx : DrumsKey.fromU32 raw.key.code with
      | some k =>
          rw [codeKnownFor, ht] at hcode
          simp [XWII_EVENT_KEY, XWII_EVENT_PRO_CONTROLLER_KEY,
            XWII_EVENT_CLASSIC_CONTROLLER_KEY, XWII_EVENT_NUNCHUK_KEY,
            XWII_EVENT_DRUMS_KEY, hx] at hcode
      | none =>
          simp [Event.parse, ht, XWII_EVENT_KEY, XWII_EVENT_ACCEL, XWII_EVENT_IR,
            XWII_EVENT_BALANCE_BOARD, XWII_EVENT_MOTION_PLUS, XWII_EVENT_PRO_CONTROLLER_KEY,
            XWII_EVENT_PRO_CONTROLLER_MOVE, XWII_EVENT_WATCH,
            XWII_EVENT_CLASSIC_CONTROLLER_KEY, XWII_EVENT_CLASSIC_CONTROLLER_MOVE,
            XWII_EVENT_NUNCHUK_KEY, XWII_EVENT_NUNCHUK_MOVE, XWII_EVENT_DRUMS_KEY,
            Except.map, parseKeyPayload, hx]
    · cases hx : GuitarKey.fromU32 raw.key.code with
      | some k =>
          rw [codeKnownFor, ht] at hcode
          simp [XWII_EVENT_KEY, XWII_EVENT_PRO_CONTROLLER_KEY,
            XWII_EVENT_CLASSIC_CONTROLLER_KEY, XWII_EVENT_NUNCHUK_KEY,
            XWII_EVENT_DRUMS_KEY, XWII_EVENT_GUITAR_KEY, hx] at hcode
      | none =>
          simp [Event.parse, ht, XWII_EVENT_KEY, XWII_EVENT_ACCEL, XWII_EVENT_IR,
            XWII_EVENT_BALANCE_BOARD, XWII_EVENT_MOTION_PLUS, XWII_EVENT_PRO_CONTROLLER_KEY,
            XWII_EVENT_PRO_CONTROLLER_MOVE, XWII_EVENT_WATCH,
            XWII_EVENT_CLASSIC_CONTROLLER_KEY, XWII_EVENT_CLASSIC_CONTROLLER_MOVE,
            XWII_EVENT_NUNCHUK_KEY, XWII_EVENT_NUNCHUK_MOVE, XWII_EVENT_DRUMS_KEY,
            XWII_EVENT_DRUMS_MOVE, XWII_EVENT_GUITAR_KEY, Except.map, parseKeyPayload, hx]
  · intro hk hcode hstate
    have hk2 : raw.type_ = 0 ∨ raw.type_ = 5 ∨ raw.type_ = 8 ∨ raw.type_ = 10 ∨
        raw.type_ = 12 ∨ raw.type_ = 14 := by
      simpa [isKeyTag, XWII_EVENT_KEY, XWII_EVENT_PRO_CONTROLLER_KEY,
        XWII_EVENT_CLASSIC_CONTROLLER_KEY, XWII_EVENT_NUNCHUK_KEY, XWII_EVENT_DRUMS_KEY,
        XWII_EVENT_GUITAR_KEY] using hk
    rcases hk2 with ht | ht | ht | ht | ht | ht
    · cases hx : Key.fromU32 raw.key.code with
      | none =>
          rw [codeKnownFor, ht] at hcode
          simp [XWII_EVENT_KEY, hx] at hcode
      | some k =>
          simp [Event.parse, ht, XWII_EVENT_KEY, Except.map, parseKeyPayload, hx, hstate]
    · cases hx : ProControllerKey.fromU32 raw.key.code with
      | none =>
          rw [codeKnownFor, ht] at hcode
          simp [XWII_EVENT_KEY, XWII_EVENT_PRO_CONTROLLER_KEY, hx] at hcode
      | some k =>
          simp [Event.parse, ht, XWII_EVENT_KEY, XWII_EVENT_ACCEL, XWII_EVENT_IR,
            XWII_EVENT_BALANCE_BOARD, XWII_EVENT_MOTION_PLUS, XWII_EVENT_PRO_CONTROLLER_KEY,
            Except.map, parseKeyPayload, hx, hstate]
    · cases hx : ClassicControllerKey.fromU32 raw.key.code with
      | none =>
          rw [codeKnownFor, ht] at hcode
          simp [XWII_EVENT_KEY, XWII_EVENT_PRO_CONTROLLER_KEY,
            XWII_EVENT_CLASSIC_CONTROLLER_KEY, hx] at hcode
      | some k =>
          simp [Event.parse, ht, XWII_EVENT_KEY, XWII_EVENT_ACCEL, XWII_EVENT_IR,
            XWII_EVENT_BALANCE_BOARD, XWII_EVENT_MOTION_PLUS, XWII_EVENT_PRO_CONTROLLER_KEY,
            XWII_EVENT_PRO_CONTROLLER_MOVE, XWII_EVENT_WATCH,
            XWII_EVENT_CLASSIC_CONTROLLER_KEY, Except.map, parseKeyPayload, hx, hstate]
    · cases hx : NunchukKey.fromU32 raw.key.code with
      | none =>
          rw [codeKnownFor, ht] at hcode
          simp [XWII_EVENT_KEY, XWII_EVENT_PRO_CONTROLLER_KEY,
            XWII_EVENT_CLASSIC_CONTROLLER_KEY, XWII_EVENT_NUNCHUK_KEY, hx] at hcode
      | some k =>
          simp [Event.parse, ht, XWII_EVENT_KEY, XWII_EVENT_ACCEL, XWII_EVENT_IR,
            XWII_EVENT_BALANCE_BOARD, XWII_EVENT_MOTION_PLUS, XWII_EVENT_PRO_CONTROLLER_KEY,
            XWII_EVENT_PRO_CONTROLLER_MOVE, XWII_EVENT_WATCH,
            XWII_EVENT_CLASSIC_CONTROLLER_KEY, XWII_EVENT_CLASSIC_CONTROLLER_MOVE,
            XWII_EVENT_NUNCHUK_KEY, Except.map, parseKeyPayload, hx, hstate]
    · cases hx : DrumsKey.fromU32 raw.key.code with
      | none =>
          rw [codeKnownFor, ht] at hcode
          simp [XWII_EVENT_KEY, XWII_EVENT_PRO_CONTROLLER_KEY,
            XWII_EVENT_CLASSIC_CONTROLLER_KEY, XWII_EVENT_NUNCHUK_KEY,
            XWII_EVENT_DRUMS_KEY, hx] at hcode
      | some k =>
          simp [Event.parse, ht, XWII_EVENT_KEY, XWII_EVENT_ACCEL, XWII_EVENT_IR,
            XWII_EVENT_BALANCE_BOARD, XWII_EVENT_MOTION_PLUS, XWII_EVENT_PRO_CONTROLLER_KEY,
            XWII_EVENT_PRO_CONTROLLER_MOVE, XWII_EVENT_WATCH,
            XWII_EVENT_CLASSIC_CONTROLLER_KEY, XWII_EVENT_CLASSIC_CONTROLLER_MOVE,
            XWII_EVENT_NUNCHUK_KEY, XWII_EVENT_NUNCHUK_MOVE, XWII_EVENT_DRUMS_KEY,
            Except.map, parseKeyPayload, hx, hstate]
    · cases hx : GuitarKey.fromU32 raw.key.code with
      | none =>
          rw [codeKnownFor, ht] at hcode
          simp [XWII_EVENT_KEY, XWII_EVENT_PRO_CONTROLLER_KEY,
            XWII_EVENT_CLASSIC_CONTROLLER_KEY, XWII_EVENT_NUNCHUK_KEY,
            XWII_EVENT_DRUMS_KEY, XWII_EVENT_GUITAR_KEY, hx] at hcode
      | some k =>
          simp [Event.parse, ht, XWII_EVENT_KEY, XWII_EVENT_ACCEL, XWII_EVENT_IR,
            XWII_EVENT_BALANCE_BOARD, XWII_EVENT_MOTION_PLUS, XWII_EVENT_PRO_CONTROLLER_KEY,
            XWII_EVENT_PRO_CONTROLLER_MOVE, XWII_EVENT_WATCH,
            XWII_EVENT_CLASSIC_CONTROLLER_KEY, XWII_EVENT_CLASSIC_CONTROLLER_MOVE,
            XWII_EVENT_NUNCHUK_KEY, XWII_EVENT_NUNCHUK_MOVE, XWII_EVENT_DRUMS_KEY,
            XWII_EVENT_DRUMS_MOVE, XWII_EVENT_GUITAR_KEY, Except.map, parseKeyPayload, hx, hstate]

/-- A raw record with an unhandled type tag. -/
def unknownTagRaw : RawEvent :=
  { tvSec := 0, tvUsec := 0, type_ := 99, key := { code := 0, state := 0 },
    abs := fun _ => { x := 0, y := 0, z := 0 } }

/-- A key record whose key code is unknown to the Wii Remote enumeration. -/
def unknownCodeRaw : RawEvent :=
  { tvSec := 0, tvUsec := 0, type_ := XWII_EVENT_KEY, key := { code := 99, state := 0 },
    abs := fun _ => { x := 0, y := 0, z := 0 } }

/-- A key record with a known key code but an unknown key-state code. -/
def unknownStateRaw : RawEvent :=
  { tvSec := 0, tvUsec := 0, type_ := XWII_EVENT_KEY,
    key := { code := XWII_KEY_A, state := 7 },
    abs := fun _ => { x := 0, y := 0, z := 0 } }

/-- C8 witness: concrete records with an unknown tag, an unknown key code,
and an unknown key state each decode to the corresponding hard fault. -/
theorem eventParse_faults_loudly_witness :
    Event.parse unknownTagRaw = .error (.unknownType unknownTagRaw.type_) ∧
    Event.parse unknownCodeRaw = .error (.unknownKeyCode unknownCodeRaw.key.code) ∧
    Event.parse unknownStateRaw = .error (.unknownKeyState unknownStateRaw.key.state) :=
  ⟨(eventParse_faults_loudly unknownTagRaw).1 (by decide),
    (eventParse_faults_loudly unknownCodeRaw).2.1 (by decide) (by decide),
    (eventParse_faults_loudly unknownStateRaw).2.2 (by decide) (by decide) (by decide)⟩
